import Mathlib

/-!
Verification of the uplift-desk-controller repository.

This file shallowly embeds the parts of the code that the specification's
claims are about: the command table (`DeskCommand`), the per-desk session
state (`DeskState`), the height-notification callback with its motion
debounce logic (`_notify_callback_height` in src/uplift/__init__.py and
`_height_notify_callback` in src/desk.py), the command sender
(`_send_desk_control_command`), the rename writer (`write_desk_name`),
the on-demand height read (`read_height`), and the observer callback
registry (`register_callback_*` / `deregister_callback_*`).

Heights (inches) and timestamps (seconds) are Python floats in the source,
but the code only ever compares them for equality or order and adds the
integer constant 1 (the 1-second dwell); every claim is a statement about
those comparisons, so the values are modelled in the linearly ordered
additive group `Int`, which supports exactly the operations the code
performs on them.  Observer callbacks are opaque Python
callables held by reference; they are modelled as opaque natural-number
identities.  BLE transport calls are modelled by the sequence of writes
they would issue; a Python exception raised before any further mutation is
modelled by an `Option`/flag result that leaves the state component at its
prior value.
-/

namespace UpliftDesk

/-- The closed set of desk control commands: the `DeskCommand` Enum of
src/uplift/__init__.py (lines 33-42).  src/desk.py lines 12-17 define the
same six payload constants as module-level lists. -/
inductive DeskCommand where
  | wake
  | moveToPresetSit
  | moveToPresetStand
  | pressButtonRaise
  | pressButtonLower
  | requestStatus
deriving DecidableEq, Repr

/-- The 6-byte payload of each command, exactly the Enum values of
src/uplift/__init__.py lines 35-42. -/
def DeskCommand.value : DeskCommand → List Nat
  | .wake => [0xF1, 0xF1, 0x00, 0x00, 0x00, 0x7E]
  | .moveToPresetSit => [0xF1, 0xF1, 0x05, 0x00, 0x05, 0x7E]
  | .moveToPresetStand => [0xF1, 0xF1, 0x06, 0x00, 0x06, 0x7E]
  | .pressButtonRaise => [0xF1, 0xF1, 0x01, 0x00, 0x01, 0x7E]
  | .pressButtonLower => [0xF1, 0xF1, 0x02, 0x00, 0x02, 0x7E]
  | .requestStatus => [0xF1, 0xF1, 0x07, 0x00, 0x07, 0x7E]

/-- The opcode of a command: byte offset 2 of its payload. -/
def DeskCommand.opcode (c : DeskCommand) : Nat := c.value.getD 2 0

/-- Enumeration of every constructor of `DeskCommand`. -/
def allCommands : List DeskCommand :=
  [.wake, .moveToPresetSit, .moveToPresetStand,
   .pressButtonRaise, .pressButtonLower, .requestStatus]

/-- The mutable per-desk session state of the `Desk` class
(src/uplift/__init__.py `__init__`, lines 57-68): `_height`, `_moving`,
`_last_heights` and `_last_action_time`.  The connection metadata
(`address`, `name`, `bleak_client`) plays no part in the claims and is
omitted.  In Python `_last_action_time` is first assigned by
`_set_moving` or by a command send; it is only ever read under a
`self.moving` guard, which in turn requires a prior `_set_moving`, so
giving it an initial value in the model does not change any behaviour. -/
structure DeskState where
  height : Int
  moving : Bool
  lastHeights : List Int
  lastActionTime : Int
deriving DecidableEq, Repr

/-- `_set_moving` (src/uplift/__init__.py lines 85-87, src/desk.py lines
38-40): writes the moving flag and stamps `_last_action_time` with the
current clock. -/
def setMoving (now : Int) (value : Bool) (st : DeskState) : DeskState :=
  { st with moving := value, lastActionTime := now }

/-- The Python guard `len(self._last_heights) > 0 and
self._last_heights[-1] != self._height`: the window is non-empty and its
newest element differs from the just-decoded value. -/
def lastValueDiffers (heights : List Int) (v : Int) : Bool :=
  match heights.getLast? with
  | some w => decide (w ≠ v)
  | none => false

/-- The four indexed comparisons `self._last_heights[0] == self._height`
… `self._last_heights[3] == self._height` of the stop condition.  The
code only evaluates them when the window holds more than 4 samples, so
the four indices always exist; a shorter list yields `false`. -/
def firstFourEqual (heights : List Int) (v : Int) : Bool :=
  match heights with
  | h0 :: h1 :: h2 :: h3 :: _ =>
      decide (h0 = v) && decide (h1 = v) && decide (h2 = v) && decide (h3 = v)
  | _ => false

/-- The first half of `_notify_callback_height`
(src/uplift/__init__.py lines 207-212): store the decoded height, set
moving when the newest windowed value differs, then append the sample. -/
def observePre (now v : Int) (st : DeskState) : DeskState :=
  let st1 : DeskState := { st with height := v }
  let st2 : DeskState :=
    if lastValueDiffers st1.lastHeights v then setMoving now true st1 else st1
  { st2 with lastHeights := st2.lastHeights ++ [v] }

/-- The stop condition of src/uplift/__init__.py lines 214-222 (identical
at src/desk.py lines 121-126): currently moving, strictly more than one
second since `_last_action_time`, and the four oldest windowed samples
all equal the newest decoded height. -/
def stopCondition (now : Int) (st : DeskState) : Bool :=
  st.moving && decide (st.lastActionTime + 1 < now)
    && firstFourEqual st.lastHeights st.height

/-- The overflow branch of the callback (src/uplift/__init__.py lines
213-225): when the window holds more than 4 samples, possibly clear the
moving flag, then `pop(0)` the oldest sample. -/
def stopAndEvict (now : Int) (st3 : DeskState) : DeskState :=
  let st4 : DeskState :=
    if stopCondition now st3 then setMoving now false st3 else st3
  { st4 with lastHeights := st4.lastHeights.tail }

/-- `_notify_callback_height` of src/uplift/__init__.py (lines 204-225),
as the pure state transformer for one decoded sample `v` arriving at
clock `now`.  The observer fan-out of lines 227-228 is modelled
separately in `heightTick`. -/
def notifyCallbackHeight (now v : Int) (st : DeskState) : DeskState :=
  let st3 := observePre now v st
  if st3.lastHeights.length > 4 then stopAndEvict now st3 else st3

namespace DeskPy

/-- The first half of `_height_notify_callback` in the superseded variant
src/desk.py (lines 113-119).  Its moving-set guard differs from the
package version: `not self.moving and (len(self._last_heights) == 0 or
self._last_heights[-1] != self._height)` — it fires only when not already
moving, and also fires on an empty window. -/
def observePre (now v : Int) (st : DeskState) : DeskState :=
  let st1 : DeskState := { st with height := v }
  let st2 : DeskState :=
    if !st1.moving && (decide (st1.lastHeights = []) || lastValueDiffers st1.lastHeights v)
    then setMoving now true st1 else st1
  { st2 with lastHeights := st2.lastHeights ++ [v] }

/-- `_height_notify_callback` of src/desk.py (lines 111-129); the
overflow branch (lines 120-129) is identical to the package version. -/
def heightNotifyCallback (now v : Int) (st : DeskState) : DeskState :=
  let st3 := DeskPy.observePre now v st
  if st3.lastHeights.length > 4 then stopAndEvict now st3 else st3

end DeskPy

/-- The session state right after `Desk.__init__`: height 0.0, not
moving, empty window. -/
def initDesk : DeskState :=
  { height := 0, moving := false, lastHeights := [], lastActionTime := 0 }

/-- Feed a list of `(clock, decoded height)` notifications through the
callback in order. -/
def runNotifications : List (Int × Int) → DeskState → DeskState
  | [], st => st
  | t :: ts, st => runNotifications ts (notifyCallbackHeight t.1 t.2 st)

/-- One full height-notification tick (src/uplift/__init__.py lines
204-228) including the byte conversion and the observer fan-out.  `conv`
models the external `height_conv_to_in`; `none` models it raising.  In
Python the conversion is evaluated in the very first statement of the
callback, before any attribute is assigned, so when it raises the
exception propagates with every session field still at its prior value
and the observer loop never runs: the tick yields the original state, an
empty list of notified observers, and a raised flag.  On success every
registered height callback is invoked, in registration order. -/
def heightTick (conv : List Nat → Option Int) (now : Int) (data : List Nat)
    (st : DeskState) (callbacks : List Nat) : DeskState × List Nat × Bool :=
  match conv data with
  | none => (st, [], true)
  | some v => (notifyCallbackHeight now v st, callbacks, false)

/-- Externally visible effects of a command send, in program order. -/
inductive DeskEvent where
  | setLastAction (t : Int)
  | write (payload : List Nat)
deriving DecidableEq, Repr

/-- `_send_desk_control_command` (src/uplift/__init__.py lines 89-98):
stamp `_last_action_time`, then — unless the command is WAKE — write the
WAKE payload, then write the command's payload.  Returns the new session
state and the ordered event trace. -/
def sendDeskControlCommand (now : Int) (cmd : DeskCommand) (st : DeskState) :
    DeskState × List DeskEvent :=
  ({ st with lastActionTime := now },
   DeskEvent.setLastAction now ::
     ((if cmd = DeskCommand.wake then [] else [DeskEvent.write DeskCommand.wake.value])
       ++ [DeskEvent.write cmd.value]))

/-- `read_height` (src/uplift/__init__.py lines 168-176): send
REQUEST_STATUS (a command send at clock `now1`), stamp
`_last_action_time` again at clock `now2`, then store the decoded
characteristic value `v` as the height. -/
def readHeight (now1 now2 v : Int) (st : DeskState) : DeskState :=
  let st' := (sendDeskControlCommand now1 DeskCommand.requestStatus st).1
  { st' with lastActionTime := now2, height := v }

/-- The packet construction of `write_desk_name` (src/uplift/__init__.py
lines 153-163).  The name is modelled by the list of bytes of its UTF-8
encoding; `none` models the Python `desk_name is None` case.  The
header is built by `bytes([0x01, 0xFC, 0x07, len(name_bytes)])`, whose
constructor raises `ValueError` when the length field does not fit in a
byte, i.e. exactly when the encoded name is longer than 255 bytes; the
result is `none` in exactly the cases where the Python code raises
before reaching the transport write. -/
def writeDeskNamePacket (deskName : Option (List Nat)) : Option (List Nat) :=
  match deskName with
  | none => none
  | some nameBytes =>
    if nameBytes.length ≤ 255 then
      some ([0x01, 0xFC, 0x07, nameBytes.length] ++ nameBytes)
    else none

/-- `write_desk_name` (src/uplift/__init__.py lines 153-166) as a state
transformer: on success it stamps `_last_action_time` and yields the
packet that is written; on failure the exception is raised before any
mutation. -/
def writeDeskName (now : Int) (deskName : Option (List Nat)) (st : DeskState) :
    Option (DeskState × List Nat) :=
  (writeDeskNamePacket deskName).map
    (fun packet => ({ st with lastActionTime := now }, packet))

/-- `register_callback_height` / `register_callback_desk_name`
(src/uplift/__init__.py lines 178-185): `list.append`. -/
def registerCallback (cb : Nat) (l : List Nat) : List Nat := l ++ [cb]

/-- `deregister_callback_height` / `deregister_callback_desk_name`
(src/uplift/__init__.py lines 181-182 and 187-188) call Python's
`list.remove(callback)`: remove the first element equal to the argument;
`none` models the `ValueError` that `list.remove` raises when no element
matches. -/
def removeFirst (cb : Nat) : List Nat → Option (List Nat)
  | [] => none
  | x :: xs =>
      if x = cb then some xs else (removeFirst cb xs).map (fun ys => x :: ys)

/-! ### Structural lemmas about the height callback -/

theorem observePre_height (now v : Int) (st : DeskState) :
    (observePre now v st).height = v := by
  by_cases h : lastValueDiffers st.lastHeights v <;>
    simp [observePre, setMoving, h]

theorem observePre_lastHeights (now v : Int) (st : DeskState) :
    (observePre now v st).lastHeights = st.lastHeights ++ [v] := by
  by_cases h : lastValueDiffers st.lastHeights v <;>
    simp [observePre, setMoving, h]

theorem observePre_moving (now v : Int) (st : DeskState) :
    (observePre now v st).moving = (st.moving || lastValueDiffers st.lastHeights v) := by
  by_cases h : lastValueDiffers st.lastHeights v <;>
    simp [observePre, setMoving, h]

theorem observePre_lastActionTime (now v : Int) (st : DeskState) :
    (observePre now v st).lastActionTime =
      if lastValueDiffers st.lastHeights v then now else st.lastActionTime := by
  by_cases h : lastValueDiffers st.lastHeights v <;>
    simp [observePre, setMoving, h]

theorem stopAndEvict_moving (now : Int) (s : DeskState) :
    (stopAndEvict now s).moving = (!stopCondition now s && s.moving) := by
  by_cases h : stopCondition now s <;> simp [stopAndEvict, setMoving, h]

theorem stopAndEvict_lastHeights (now : Int) (s : DeskState) :
    (stopAndEvict now s).lastHeights = s.lastHeights.tail := by
  by_cases h : stopCondition now s <;> simp [stopAndEvict, setMoving, h]

theorem stopAndEvict_lastActionTime (now : Int) (s : DeskState) :
    (stopAndEvict now s).lastActionTime =
      if stopCondition now s then now else s.lastActionTime := by
  by_cases h : stopCondition now s <;> simp [stopAndEvict, setMoving, h]

theorem notify_of_le (now v : Int) (st : DeskState)
    (h : ¬ (observePre now v st).lastHeights.length > 4) :
    notifyCallbackHeight now v st = observePre now v st := by
  simp only [notifyCallbackHeight]
  rw [if_neg h]

theorem notify_of_gt (now v : Int) (st : DeskState)
    (h : (observePre now v st).lastHeights.length > 4) :
    notifyCallbackHeight now v st = stopAndEvict now (observePre now v st) := by
  simp only [notifyCallbackHeight]
  rw [if_pos h]

theorem stopCondition_iff (now : Int) (s : DeskState) :
    stopCondition now s = true ↔
      s.moving = true ∧ s.lastActionTime + 1 < now ∧
        firstFourEqual s.lastHeights s.height = true := by
  simp [stopCondition, Bool.and_eq_true, decide_eq_true_iff, and_assoc]

theorem stopCondition_of_fresh_action (now : Int) (s : DeskState)
    (h : s.lastActionTime = now) : stopCondition now s = false := by
  have : ¬ (s.lastActionTime + 1 < now) := by omega
  simp [stopCondition, this]

theorem deskPy_observePre_height (now v : Int) (st : DeskState) :
    (DeskPy.observePre now v st).height = v := by
  by_cases h : (!st.moving && (decide (st.lastHeights = []) || lastValueDiffers st.lastHeights v)) <;>
    simp [DeskPy.observePre, setMoving, h]

theorem deskPy_observePre_lastHeights (now v : Int) (st : DeskState) :
    (DeskPy.observePre now v st).lastHeights = st.lastHeights ++ [v] := by
  by_cases h : (!st.moving && (decide (st.lastHeights = []) || lastValueDiffers st.lastHeights v)) <;>
    simp [DeskPy.observePre, setMoving, h]

theorem deskPy_observePre_moving (now v : Int) (st : DeskState) :
    (DeskPy.observePre now v st).moving =
      (st.moving || (decide (st.lastHeights = []) || lastValueDiffers st.lastHeights v)) := by
  cases hm : st.moving <;>
    by_cases h : (decide (st.lastHeights = []) || lastValueDiffers st.lastHeights v) = true <;>
      simp [DeskPy.observePre, setMoving, hm, h]

theorem deskPy_observePre_lastActionTime (now v : Int) (st : DeskState) :
    (DeskPy.observePre now v st).lastActionTime =
      if (!st.moving && (decide (st.lastHeights = []) || lastValueDiffers st.lastHeights v))
      then now else st.lastActionTime := by
  by_cases h : (!st.moving && (decide (st.lastHeights = []) || lastValueDiffers st.lastHeights v)) <;>
    simp [DeskPy.observePre, setMoving, h]

theorem deskPy_notify_of_le (now v : Int) (st : DeskState)
    (h : ¬ (DeskPy.observePre now v st).lastHeights.length > 4) :
    DeskPy.heightNotifyCallback now v st = DeskPy.observePre now v st := by
  simp only [DeskPy.heightNotifyCallback]
  rw [if_neg h]

theorem deskPy_notify_of_gt (now v : Int) (st : DeskState)
    (h : (DeskPy.observePre now v st).lastHeights.length > 4) :
    DeskPy.heightNotifyCallback now v st = stopAndEvict now (DeskPy.observePre now v st) := by
  simp only [DeskPy.heightNotifyCallback]
  rw [if_pos h]

/-! ### Behavioural helper lemmas shared between the claims -/

/-- When the new sample differs from the newest windowed value, the
callback ends with the moving flag set and `_last_action_time` stamped
with the current clock, regardless of whether it was already moving. -/
theorem notify_moving_of_differs (now v : Int) (st : DeskState)
    (h : lastValueDiffers st.lastHeights v = true) :
    (notifyCallbackHeight now v st).moving = true ∧
    (notifyCallbackHeight now v st).lastActionTime = now := by
  have hmov : (observePre now v st).moving = true := by
    rw [observePre_moving, h]; simp
  have hact : (observePre now v st).lastActionTime = now := by
    rw [observePre_lastActionTime, if_pos h]
  by_cases hlen : (observePre now v st).lastHeights.length > 4
  · rw [notify_of_gt now v st hlen]
    have hstop : stopCondition now (observePre now v st) = false :=
      stopCondition_of_fresh_action now _ hact
    rw [stopAndEvict_moving, stopAndEvict_lastActionTime, hstop]
    simp [hmov, hact]
  · rw [notify_of_le now v st hlen]
    exact ⟨hmov, hact⟩

/-- When the new sample equals the newest windowed value (or the window
is empty) and the desk is not flagged as moving, the callback leaves the
flag cleared. -/
theorem notify_moving_of_same (now v : Int) (st : DeskState)
    (h : lastValueDiffers st.lastHeights v = false) (hm : st.moving = false) :
    (notifyCallbackHeight now v st).moving = false := by
  have hmov : (observePre now v st).moving = false := by
    rw [observePre_moving, h, hm]; rfl
  by_cases hlen : (observePre now v st).lastHeights.length > 4
  · rw [notify_of_gt now v st hlen, stopAndEvict_moving, hmov]
    simp
  · rw [notify_of_le now v st hlen]
    exact hmov

/-- A sample arriving to an empty window leaves the moving flag and
`_last_action_time` untouched. -/
theorem notify_of_empty (now v : Int) (st : DeskState) (h : st.lastHeights = []) :
    (notifyCallbackHeight now v st).moving = st.moving ∧
    (notifyCallbackHeight now v st).lastActionTime = st.lastActionTime := by
  have hd : lastValueDiffers st.lastHeights v = false := by rw [h]; rfl
  have hlen : ¬ (observePre now v st).lastHeights.length > 4 := by
    rw [observePre_lastHeights, h]; simp
  rw [notify_of_le now v st hlen]
  constructor
  · rw [observePre_moving, hd]; simp
  · rw [observePre_lastActionTime, hd]; simp

/-- In the src/desk.py variant, a not-moving desk whose window is empty
or whose newest windowed value differs gets the moving flag set. -/
theorem deskPy_notify_moving_of_guard (now v : Int) (st : DeskState)
    (hm : st.moving = false)
    (h : st.lastHeights = [] ∨ lastValueDiffers st.lastHeights v = true) :
    (DeskPy.heightNotifyCallback now v st).moving = true := by
  have hg : (decide (st.lastHeights = []) || lastValueDiffers st.lastHeights v) = true := by
    rcases h with h | h <;> simp [h]
  have hcond : (!st.moving && (decide (st.lastHeights = []) || lastValueDiffers st.lastHeights v)) = true := by
    rw [hm, hg]; rfl
  have hmov : (DeskPy.observePre now v st).moving = true := by
    rw [deskPy_observePre_moving, hg]; simp
  have hact : (DeskPy.observePre now v st).lastActionTime = now := by
    rw [deskPy_observePre_lastActionTime, if_pos hcond]
  by_cases hlen : (DeskPy.observePre now v st).lastHeights.length > 4
  · rw [deskPy_notify_of_gt now v st hlen, stopAndEvict_moving,
        stopCondition_of_fresh_action now _ hact, hmov]
    rfl
  · rw [deskPy_notify_of_le now v st hlen]
    exact hmov

/-- In the src/desk.py variant, a not-moving desk with a non-empty
window and an unchanged newest value stays not moving. -/
theorem deskPy_notify_moving_of_no_guard (now v : Int) (st : DeskState)
    (hm : st.moving = false) (hne : st.lastHeights ≠ [])
    (h : lastValueDiffers st.lastHeights v = false) :
    (DeskPy.heightNotifyCallback now v st).moving = false := by
  have hg : (decide (st.lastHeights = []) || lastValueDiffers st.lastHeights v) = false := by
    simp [hne, h]
  have hmov : (DeskPy.observePre now v st).moving = false := by
    rw [deskPy_observePre_moving, hg, hm]; rfl
  by_cases hlen : (DeskPy.observePre now v st).lastHeights.length > 4
  · rw [deskPy_notify_of_gt now v st hlen, stopAndEvict_moving, hmov]
    simp
  · rw [deskPy_notify_of_le now v st hlen]
    exact hmov

/-- One callback invocation grows a not-yet-full window by one and caps
a full window at 4 after the eviction. -/
theorem notify_length_min (now v : Int) (st : DeskState)
    (h : st.lastHeights.length ≤ 4) :
    (notifyCallbackHeight now v st).lastHeights.length =
      min (st.lastHeights.length + 1) 4 := by
  have hlen : (observePre now v st).lastHeights.length = st.lastHeights.length + 1 := by
    rw [observePre_lastHeights]; simp
  by_cases hgt : (observePre now v st).lastHeights.length > 4
  · rw [notify_of_gt now v st hgt, stopAndEvict_lastHeights, List.length_tail, hlen]
    rw [hlen] at hgt
    omega
  · rw [notify_of_le now v st hgt, hlen]
    rw [hlen] at hgt
    omega

/-- Running any list of notifications keeps the window length at
`min (initial + processed) 4`, provided the start state respects the
bound. -/
theorem run_length (ticks : List (Int × Int)) :
    ∀ st : DeskState, st.lastHeights.length ≤ 4 →
      (runNotifications ticks st).lastHeights.length =
        min (st.lastHeights.length + ticks.length) 4 := by
  induction ticks with
  | nil =>
      intro st h
      simp only [runNotifications, List.length_nil]
      omega
  | cons t ts ih =>
      intro st h
      have h1 := notify_length_min t.1 t.2 st h
      have h2 : (notifyCallbackHeight t.1 t.2 st).lastHeights.length ≤ 4 := by omega
      have h3 := ih (notifyCallbackHeight t.1 t.2 st) h2
      simp only [runNotifications, List.length_cons]
      rw [h3, h1]
      omega

/-! ### The claims -/

/-- Claim C6: every command in the closed set encodes to exactly 6 bytes
of the shape `[0xF1, 0xF1, opcode, 0x00, opcode, 0x7E]`, `allCommands`
enumerates the whole set, and the opcodes of the six commands are
pairwise distinct. -/
theorem command_payload_shape :
    (∀ c : DeskCommand,
      c.value.length = 6 ∧
      c.value.getD 0 0 = 0xF1 ∧ c.value.getD 1 0 = 0xF1 ∧
      c.value.getD 2 0 = c.opcode ∧ c.value.getD 3 0 = 0x00 ∧
      c.value.getD 4 0 = c.opcode ∧ c.value.getD 5 0 = 0x7E) ∧
    (∀ c : DeskCommand, c ∈ allCommands) ∧
    (allCommands.map DeskCommand.opcode).Nodup := by
  refine ⟨fun c => by cases c <;> decide, fun c => by cases c <;> decide, by decide⟩

/-- Claim C7: a non-wake command send stamps `_last_action_time` and then
issues exactly two characteristic writes, the wake payload followed by
the command's payload; sending wake issues exactly one write; in both
cases the time stamp precedes every write in the event trace. -/
theorem send_command_trace (now : Int) (cmd : DeskCommand) (st : DeskState) :
    (cmd ≠ DeskCommand.wake →
      (sendDeskControlCommand now cmd st).2 =
        [DeskEvent.setLastAction now, DeskEvent.write DeskCommand.wake.value,
         DeskEvent.write cmd.value]) ∧
    (sendDeskControlCommand now DeskCommand.wake st).2 =
      [DeskEvent.setLastAction now, DeskEvent.write DeskCommand.wake.value] ∧
    (sendDeskControlCommand now cmd st).2.head? = some (DeskEvent.setLastAction now) := by
  refine ⟨fun h => ?_, ?_, ?_⟩
  · simp [sendDeskControlCommand, h]
  · simp [sendDeskControlCommand]
  · simp [sendDeskControlCommand]

/-- Witness for C7 at a concrete non-wake command. -/
theorem send_command_trace_witness :
    DeskCommand.moveToPresetStand ≠ DeskCommand.wake ∧
    (sendDeskControlCommand 2 DeskCommand.moveToPresetStand initDesk).2 =
      [DeskEvent.setLastAction 2, DeskEvent.write DeskCommand.wake.value,
       DeskEvent.write DeskCommand.moveToPresetStand.value] :=
  ⟨by decide, (send_command_trace 2 DeskCommand.moveToPresetStand initDesk).1 (by decide)⟩

/-- Claim C9: when the byte-to-height conversion rejects the
notification bytes, the tick propagates the error, leaves every session
field at its prior value, and notifies no observer. -/
theorem malformed_telemetry_no_effect (conv : List Nat → Option Int) (now : Int)
    (data : List Nat) (st : DeskState) (callbacks : List Nat)
    (h : conv data = none) :
    heightTick conv now data st callbacks = (st, [], true) := by
  simp [heightTick, h]

/-- Witness for C9 with a conversion that rejects everything. -/
theorem malformed_telemetry_no_effect_witness :
    (fun _ : List Nat => (none : Option Int)) [1, 2] = none ∧
    heightTick (fun _ => none) 3 [1, 2] ⟨7, true, [1], 4⟩ [9] = (⟨7, true, [1], 4⟩, [], true) :=
  ⟨rfl, malformed_telemetry_no_effect (fun _ => none) 3 [1, 2] ⟨7, true, [1], 4⟩ [9] rfl⟩

/-- Claim C10: `_set_moving` always stamps `_last_action_time` with the
current clock, and a notification whose value differs from the newest
windowed value runs the moving-set path even when already moving, so
after it the flag is true and `_last_action_time` equals the
notification's clock — the stop dwell is measured from the latest value
change, not only from the last issued command. -/
theorem set_moving_resets_action_time :
    (∀ (now : Int) (b : Bool) (st : DeskState),
      (setMoving now b st).lastActionTime = now ∧ (setMoving now b st).moving = b) ∧
    (∀ (now v : Int) (st : DeskState), lastValueDiffers st.lastHeights v = true →
      (notifyCallbackHeight now v st).moving = true ∧
      (notifyCallbackHeight now v st).lastActionTime = now) :=
  ⟨fun _ _ _ => ⟨rfl, rfl⟩, fun now v st h => notify_moving_of_differs now v st h⟩

/-- Witness for C10 on a desk that is already moving. -/
theorem set_moving_resets_action_time_witness :
    lastValueDiffers ([1] : List Int) 2 = true ∧
    (⟨0, true, [1], 0⟩ : DeskState).moving = true ∧
    (notifyCallbackHeight 7 2 ⟨0, true, [1], 0⟩).moving = true ∧
    (notifyCallbackHeight 7 2 ⟨0, true, [1], 0⟩).lastActionTime = 7 :=
  ⟨by decide, by decide,
   (set_moving_resets_action_time.2 7 2 ⟨0, true, [1], 0⟩ (by decide)).1,
   (set_moving_resets_action_time.2 7 2 ⟨0, true, [1], 0⟩ (by decide)).2⟩

/-- Counterexample to claim C1 as stated: at clock 1, exactly one second
has elapsed since `lastActionTime = 0` (so "at least 1 second has
elapsed" holds), the desk is moving and the four oldest windowed samples
equal the newest value 5, yet the callback keeps `moving = true`,
because the code demands strictly more than one second
(`self._last_action_time + 1 < time.time()`). -/
theorem stop_at_exactly_one_second_keeps_moving :
    (observePre 1 5 ⟨5, true, [5, 5, 5, 5], 0⟩).lastHeights.length > 4 ∧
    (observePre 1 5 ⟨5, true, [5, 5, 5, 5], 0⟩).moving = true ∧
    (observePre 1 5 ⟨5, true, [5, 5, 5, 5], 0⟩).lastActionTime + 1 ≤ 1 ∧
    firstFourEqual (observePre 1 5 ⟨5, true, [5, 5, 5, 5], 0⟩).lastHeights 5 = true ∧
    (notifyCallbackHeight 1 5 ⟨5, true, [5, 5, 5, 5], 0⟩).moving = true := by
  decide

/-- Claim C1 (amended: the dwell requirement is strictly more than one
second since `lastActionTime`, not at least one second): when the window
holds more than 4 samples after the append, the moving flag transitions
to false if and only if it is true at the stop check, strictly more than
one second has elapsed since `lastActionTime`, and the four oldest
windowed samples all equal the just-appended value; if any condition
fails, moving stays true. -/
theorem stop_transition_iff (st : DeskState) (now v : Int)
    (h : (observePre now v st).lastHeights.length > 4) :
    ((observePre now v st).moving = true ∧
      (notifyCallbackHeight now v st).moving = false) ↔
      ((observePre now v st).moving = true ∧
       (observePre now v st).lastActionTime + 1 < now ∧
       firstFourEqual (observePre now v st).lastHeights v = true) := by
  rw [notify_of_gt now v st h, stopAndEvict_moving]
  by_cases hs : stopCondition now (observePre now v st) = true
  · have hc := (stopCondition_iff now (observePre now v st)).mp hs
    rw [observePre_height] at hc
    simp [hs, hc.1, hc.2.1, hc.2.2]
  · have hs' : stopCondition now (observePre now v st) = false :=
      Bool.eq_false_iff.mpr hs
    simp only [hs', Bool.not_false, Bool.true_and]
    constructor
    · rintro ⟨hm, hf⟩
      rw [hm] at hf
      cases hf
    · rintro ⟨hm, hd, hf⟩
      exfalso
      apply hs
      rw [stopCondition_iff, observePre_height]
      exact ⟨hm, hd, hf⟩

/-- Witness for the amended C1 where the stop condition genuinely fires. -/
theorem stop_transition_iff_witness :
    (observePre 3 9 ⟨9, true, [9, 9, 9, 9], 0⟩).lastHeights.length > 4 ∧
    (((observePre 3 9 ⟨9, true, [9, 9, 9, 9], 0⟩).moving = true ∧
      (notifyCallbackHeight 3 9 ⟨9, true, [9, 9, 9, 9], 0⟩).moving = false) ↔
     ((observePre 3 9 ⟨9, true, [9, 9, 9, 9], 0⟩).moving = true ∧
      (observePre 3 9 ⟨9, true, [9, 9, 9, 9], 0⟩).lastActionTime + 1 < 3 ∧
      firstFourEqual (observePre 3 9 ⟨9, true, [9, 9, 9, 9], 0⟩).lastHeights 9 = true)) :=
  ⟨by decide, stop_transition_iff ⟨9, true, [9, 9, 9, 9], 0⟩ 3 9 (by decide)⟩

/-- Counterexample to claim C2 as stated: in the superseded variant
src/desk.py, a sample arriving to an *empty* window while not moving
does set the moving flag (guard `not self.moving and
(len(self._last_heights) == 0 or ...)` at src/desk.py line 116),
contradicting "processing a sample when the window is empty never sets
moving to true". -/
theorem deskpy_first_sample_sets_moving :
    (⟨0, false, [], 0⟩ : DeskState).lastHeights = [] ∧
    (⟨0, false, [], 0⟩ : DeskState).moving = false ∧
    (DeskPy.heightNotifyCallback 1 30 ⟨0, false, [], 0⟩).moving = true := by
  decide

/-- Claim C2 (amended: the stated behaviour is that of the package
implementation src/uplift/__init__.py; the superseded src/desk.py
variant additionally sets moving on a sample arriving to an empty window
while not moving): in the package callback the moving flag is set
exactly when the window is non-empty and the new value differs from the
newest windowed value, an unchanged value never sets it, and an empty
window changes neither the flag nor `lastActionTime`; in the desk.py
callback a not-moving desk is flagged as moving when the window is empty
or the value differs, and stays unflagged otherwise. -/
theorem moving_set_exactly_on_change (st : DeskState) (now v : Int) :
    (lastValueDiffers st.lastHeights v = true →
      (notifyCallbackHeight now v st).moving = true) ∧
    (lastValueDiffers st.lastHeights v = false → st.moving = false →
      (notifyCallbackHeight now v st).moving = false) ∧
    (st.lastHeights = [] →
      (notifyCallbackHeight now v st).moving = st.moving ∧
      (notifyCallbackHeight now v st).lastActionTime = st.lastActionTime) ∧
    (st.moving = false →
      (st.lastHeights = [] ∨ lastValueDiffers st.lastHeights v = true) →
      (DeskPy.heightNotifyCallback now v st).moving = true) ∧
    (st.moving = false → st.lastHeights ≠ [] →
      lastValueDiffers st.lastHeights v = false →
      (DeskPy.heightNotifyCallback now v st).moving = false) :=
  ⟨fun h => (notify_moving_of_differs now v st h).1,
   fun h hm => notify_moving_of_same now v st h hm,
   fun h => notify_of_empty now v st h,
   fun hm h => deskPy_notify_moving_of_guard now v st hm h,
   fun hm hne h => deskPy_notify_moving_of_no_guard now v st hm hne h⟩

/-- Witness for C2 exercising every branch of the amended statement. -/
theorem moving_set_exactly_on_change_witness :
    (notifyCallbackHeight 2 4 ⟨0, false, [3], 0⟩).moving = true ∧
    (notifyCallbackHeight 2 3 ⟨0, false, [3], 0⟩).moving = false ∧
    ((notifyCallbackHeight 2 4 ⟨0, true, [], 5⟩).moving = (⟨0, true, [], 5⟩ : DeskState).moving ∧
     (notifyCallbackHeight 2 4 ⟨0, true, [], 5⟩).lastActionTime = 5) ∧
    (DeskPy.heightNotifyCallback 2 4 ⟨0, false, [], 0⟩).moving = true ∧
    (DeskPy.heightNotifyCallback 2 3 ⟨0, false, [3], 0⟩).moving = false :=
  ⟨(moving_set_exactly_on_change ⟨0, false, [3], 0⟩ 2 4).1 (by decide),
   (moving_set_exactly_on_change ⟨0, false, [3], 0⟩ 2 3).2.1 (by decide) rfl,
   (moving_set_exactly_on_change ⟨0, true, [], 5⟩ 2 4).2.2.1 rfl,
   (moving_set_exactly_on_change ⟨0, false, [], 0⟩ 2 4).2.2.2.1 rfl (Or.inl rfl),
   (moving_set_exactly_on_change ⟨0, false, [3], 0⟩ 2 3).2.2.2.2 rfl (by decide) (by decide)⟩

/-- Counterexample to claim C3 as stated: the telemetry-processing path
does change `lastActionTime` — a value change makes the callback call
`_set_moving(True)`, which stamps `_last_action_time` with the current
clock (src/uplift/__init__.py lines 85-87 and 209-210). -/
theorem telemetry_mutates_last_action_time :
    (⟨0, false, [1], 0⟩ : DeskState).lastActionTime = 0 ∧
    (notifyCallbackHeight 5 2 ⟨0, false, [1], 0⟩).lastActionTime = 5 := by
  decide

/-- Claim C3 (amended: `lastActionTime` is mutated by the
command-sending operations and additionally by the telemetry path
whenever it writes the moving flag through `_set_moving`): a command
send touches only `lastActionTime`; a successful rename touches only
`lastActionTime`; `read_height` touches only `lastActionTime` and the
height; and the telemetry callback leaves `lastActionTime` either
unchanged or stamped with the notification's clock. -/
theorem frame_effects :
    (∀ (now : Int) (cmd : DeskCommand) (st : DeskState),
      (sendDeskControlCommand now cmd st).1.moving = st.moving ∧
      (sendDeskControlCommand now cmd st).1.lastHeights = st.lastHeights ∧
      (sendDeskControlCommand now cmd st).1.height = st.height ∧
      (sendDeskControlCommand now cmd st).1.lastActionTime = now) ∧
    (∀ (now : Int) (deskName : Option (List Nat)) (st st2 : DeskState) (packet : List Nat),
      writeDeskName now deskName st = some (st2, packet) →
      st2.moving = st.moving ∧ st2.lastHeights = st.lastHeights ∧
      st2.height = st.height ∧ st2.lastActionTime = now) ∧
    (∀ (now1 now2 v : Int) (st : DeskState),
      (readHeight now1 now2 v st).moving = st.moving ∧
      (readHeight now1 now2 v st).lastHeights = st.lastHeights ∧
      (readHeight now1 now2 v st).height = v ∧
      (readHeight now1 now2 v st).lastActionTime = now2) ∧
    (∀ (now v : Int) (st : DeskState),
      (notifyCallbackHeight now v st).lastActionTime = st.lastActionTime ∨
      (notifyCallbackHeight now v st).lastActionTime = now) := by
  refine ⟨fun now cmd st => ⟨rfl, rfl, rfl, rfl⟩, ?_, fun now1 now2 v st => ⟨rfl, rfl, rfl, rfl⟩, ?_⟩
  · intro now deskName st st2 packet h
    rcases Option.map_eq_some'.mp h with ⟨p, hp, heq⟩
    rcases Prod.mk.injEq .. ▸ heq with ⟨h1, h2⟩
    rw [← h1]
    exact ⟨rfl, rfl, rfl, rfl⟩
  · intro now v st
    by_cases hlen : (observePre now v st).lastHeights.length > 4
    · rw [notify_of_gt now v st hlen, stopAndEvict_lastActionTime]
      by_cases hs : stopCondition now (observePre now v st) = true
      · right
        rw [if_pos hs]
      · rw [if_neg hs, observePre_lastActionTime]
        by_cases hd : lastValueDiffers st.lastHeights v = true
        · right
          rw [if_pos hd]
        · left
          rw [if_neg hd]
    · rw [notify_of_le now v st hlen, observePre_lastActionTime]
      by_cases hd : lastValueDiffers st.lastHeights v = true
      · right
        rw [if_pos hd]
      · left
        rw [if_neg hd]

/-- Witness for C3 exercising the rename branch of the frame statement. -/
theorem frame_effects_witness :
    writeDeskName 5 (some [65]) ⟨1, true, [2], 0⟩ =
      some (⟨1, true, [2], 5⟩, [0x01, 0xFC, 0x07, 1, 65]) ∧
    ((⟨1, true, [2], 5⟩ : DeskState).moving = (⟨1, true, [2], 0⟩ : DeskState).moving ∧
     (⟨1, true, [2], 5⟩ : DeskState).lastHeights = (⟨1, true, [2], 0⟩ : DeskState).lastHeights ∧
     (⟨1, true, [2], 5⟩ : DeskState).height = (⟨1, true, [2], 0⟩ : DeskState).height ∧
     (⟨1, true, [2], 5⟩ : DeskState).lastActionTime = 5) :=
  ⟨by decide,
   frame_effects.2.1 5 (some [65]) ⟨1, true, [2], 0⟩ ⟨1, true, [2], 5⟩
     [0x01, 0xFC, 0x07, 1, 65] (by decide)⟩

/-- Counterexample to claim C4 as stated: deregistering an observer that
is not registered is not a silent no-op — Python's `list.remove` raises
`ValueError` (modelled by the `none` result), both on an empty observer
list and on a non-empty one without a matching entry. -/
theorem deregister_missing_raises :
    removeFirst 3 [] = none ∧ removeFirst 3 [1, 2] = none := by
  decide

/-- Claim C4 (amended: deregistering an observer that is not currently
registered raises `ValueError` instead of being a silent no-op): for
every observer and list, `list.remove` fails exactly when the observer
is absent, and when it is present it removes precisely the first
matching entry. -/
theorem deregister_spec (cb : Nat) (l : List Nat) :
    (cb ∉ l → removeFirst cb l = none) ∧
    (cb ∈ l → removeFirst cb l = some (l.erase cb)) := by
  induction l with
  | nil =>
      exact ⟨fun _ => rfl, fun h => absurd h (List.not_mem_nil cb)⟩
  | cons x xs ih =>
      constructor
      · intro h
        have hx : ¬ x = cb := fun e => h (e ▸ List.mem_cons_self x xs)
        have hxs : cb ∉ xs := fun hm => h (List.mem_cons_of_mem x hm)
        simp [removeFirst, hx, ih.1 hxs]
      · intro h
        by_cases hx : x = cb
        · subst hx
          simp [removeFirst, List.erase_cons_head]
        · have hxs : cb ∈ xs := by
            rcases List.mem_cons.mp h with h' | h'
            · exact absurd h'.symm hx
            · exact h'
          have he : (x :: xs).erase cb = x :: xs.erase cb :=
            List.erase_cons_tail (by simpa using hx)
          simp [removeFirst, hx, ih.2 hxs, he]

/-- Witness for C4: a missing observer fails, a duplicated observer
loses exactly its first occurrence. -/
theorem deregister_spec_witness :
    ((3 : Nat) ∉ ([0, 1, 2] : List Nat)) ∧
    removeFirst 3 [0, 1, 2] = none ∧
    ((1 : Nat) ∈ ([0, 1, 1, 2] : List Nat)) ∧
    removeFirst 1 [0, 1, 1, 2] = some [0, 1, 2] :=
  ⟨by decide, (deregister_spec 3 [0, 1, 2]).1 (by decide), by decide,
   (deregister_spec 1 [0, 1, 1, 2]).2 (by decide)⟩

/-- Counterexample to claim C5 as stated: renaming to the empty string
does not fail — `write_desk_name` only rejects an absent name, so the
empty name produces the packet `[0x01, 0xFC, 0x07, 0x00]` with an empty
body and proceeds to the transport write. -/
theorem rename_empty_name_succeeds :
    writeDeskNamePacket (some []) = some [0x01, 0xFC, 0x07, 0x00] ∧
    writeDeskNamePacket (some []) ≠ none := by
  decide

/-- Claim C5 (amended: only an absent name or a UTF-8 encoding longer
than 255 bytes fails before any transport write; the empty string is
accepted and encodes a zero-length body): an absent name fails, an
encoding longer than 255 bytes fails (the `bytes([...])` length field
does not fit in a byte), and every encoding of at most 255 bytes —
including the empty one — yields the header `[0x01, 0xFC, 0x07, len]`
followed by the name bytes. -/
theorem rename_packet_spec (nameBytes : List Nat) :
    writeDeskNamePacket none = none ∧
    (255 < nameBytes.length → writeDeskNamePacket (some nameBytes) = none) ∧
    (nameBytes.length ≤ 255 → writeDeskNamePacket (some nameBytes) =
      some ([0x01, 0xFC, 0x07, nameBytes.length] ++ nameBytes)) := by
  refine ⟨rfl, fun h => ?_, fun h => ?_⟩
  · simp only [writeDeskNamePacket]
    rw [if_neg (by omega)]
  · simp only [writeDeskNamePacket]
    rw [if_pos h]

/-- Witness for C5: the 5-byte UTF-8 encoding of "Desk1" yields the
documented packet, and a 256-byte name is rejected. -/
theorem rename_packet_spec_witness :
    ([0x44, 0x65, 0x73, 0x6B, 0x31] : List Nat).length ≤ 255 ∧
    writeDeskNamePacket (some [0x44, 0x65, 0x73, 0x6B, 0x31]) =
      some [0x01, 0xFC, 0x07, 5, 0x44, 0x65, 0x73, 0x6B, 0x31] ∧
    255 < (List.replicate 256 (0 : Nat)).length ∧
    writeDeskNamePacket (some (List.replicate 256 (0 : Nat))) = none := by
  refine ⟨by decide, ?_, by rw [List.length_replicate]; omega,
    (rename_packet_spec (List.replicate 256 0)).2.1 (by rw [List.length_replicate]; omega)⟩
  exact (rename_packet_spec [0x44, 0x65, 0x73, 0x6B, 0x31]).2.2 (by decide)

/-- Claim C8: starting from a fresh session, after each fully processed
notification the window holds `min (samples seen) 4` elements; the
window only ever reaches 5 elements transiently, between the append and
the eviction; and once at least 4 samples have been seen, every further
notification leaves exactly 4 elements behind. -/
theorem window_bounds :
    (∀ ticks : List (Int × Int),
      (runNotifications ticks initDesk).lastHeights.length = min ticks.length 4) ∧
    (∀ (ticks : List (Int × Int)) (now v : Int),
      (observePre now v (runNotifications ticks initDesk)).lastHeights.length ≤ 5) ∧
    (∀ (ticks : List (Int × Int)) (now v : Int), 4 ≤ ticks.length →
      (runNotifications (ticks ++ [(now, v)]) initDesk).lastHeights.length = 4) := by
  have hrun : ∀ ticks : List (Int × Int),
      (runNotifications ticks initDesk).lastHeights.length = min ticks.length 4 := by
    intro ticks
    have h := run_length ticks initDesk (by simp [initDesk])
    simpa [initDesk] using h
  refine ⟨hrun, ?_, ?_⟩
  · intro ticks now v
    rw [observePre_lastHeights]
    have h := hrun ticks
    simp only [List.length_append, List.length_cons, List.length_nil]
    omega
  · intro ticks now v h
    rw [hrun]
    simp only [List.length_append, List.length_cons, List.length_nil]
    omega

/-- Witness for C8 on a 4-sample prefix followed by one more
notification. -/
theorem window_bounds_witness :
    4 ≤ ([(0, 1), (0, 1), (0, 1), (0, 1)] : List (Int × Int)).length ∧
    (runNotifications ([(0, 1), (0, 1), (0, 1), (0, 1)] ++ [(9, 2)])
        initDesk).lastHeights.length = 4 :=
  ⟨by decide, window_bounds.2.2 [(0, 1), (0, 1), (0, 1), (0, 1)] 9 2 (by decide)⟩

end UpliftDesk
